import Mathlib

/-!
# Drop-point assignment service: a shallow embedding

This file embeds the drop-point assignment core of the logistics service
(`src/services/drop-point-assignment-service.ts` and its repository
`drop-point-repository.ts`) as executable Lean definitions, and proves
properties of the assignment, reassignment and nearby-points operations.

Modelling conventions:
* Storage (the Prisma-backed tables of drop points, time-slot capacities and
  assignments) is a `StoreState` record of lists; repository methods are
  functions from a state to a result together with the successor state.
  Row creation appends to the list and draws fresh ids from a counter,
  matching autoincrement primary keys (which start at 1 in the database).
* Kilogram amounts and crate counts are integers (`ℤ`): every capacity and
  quantity handled by the service logic is an integer number of kilograms.
  `Math.ceil(quantityKg / 50)` becomes an exact integer ceiling division,
  proved equal to `⌈q / 50⌉` over `ℚ` below (`intCeilDiv_eq_ceil`).
* The Haversine great-circle distance is a floating-point computation on
  coordinates; its numeric value is irrelevant to every claim proved here,
  so the distance function is a parameter `dist` of the operations that
  rank candidates, and `findNearby` applies it exactly where the source
  computes `calculateHaversineDistance`.
* JavaScript `Date` values are modelled by `DateTime`: a local calendar day
  index plus wall-clock hour/minute/second/millisecond fields, which is the
  granularity the service reads and writes (`setHours`, `getHours`,
  `getMinutes`, `getDay`, date equality on slot keys).
* `Array.prototype.sort` with the distance comparator is a stable sort; it
  is modelled by `List.insertionSort`, which is stable and sorted.
* String helpers (`toLowerCase`, `split(':')`, `Number` on the split parts)
  are re-implemented over the character list of a `String` because the
  built-in `String.toLower` and friends do not reduce inside the kernel;
  the re-implementations compute the same values on the inputs involved.
* Logging calls have no observable effect and are omitted.
-/

/-! ## JavaScript primitives -/

/-- Integer ceiling division: `intCeilDiv a b = ⌈a / b⌉` for `b > 0`, via the
floor-rounding `Int` division `Int.ediv`. Used to embed `Math.ceil(q / 50)`
on integer kilogram amounts. -/
def intCeilDiv (a b : ℤ) : ℤ := -(-a / b)

/-- Wall-clock date and time, at the granularity the service observes: a
local calendar day index (days since the epoch) and hour/minute/second/
millisecond fields. -/
structure DateTime where
  day : ℤ
  hour : ℕ
  minute : ℕ
  second : ℕ
  ms : ℕ
deriving DecidableEq, Repr, Inhabited

/-- JavaScript `Date.prototype.getDay`: 0 = Sunday … 6 = Saturday. Day 0 of
the epoch (1970-01-01) is a Thursday, weekday index 4. -/
def jsGetDay (d : DateTime) : ℤ := (d.day + 4) % 7

/-- JavaScript `date.setHours(h, 0, 0, 0)`: sets the hour and zeroes minute,
second and millisecond, rolling into later days for `h ≥ 24`. -/
def jsSetHours (d : DateTime) (h : ℕ) : DateTime :=
  { day := d.day + (h / 24 : ℕ), hour := h % 24, minute := 0, second := 0, ms := 0 }

/-- JavaScript `s.toLowerCase()` over the character list (the built-in
`String.toLower` computes the same string but does not kernel-reduce). -/
def jsToLower (s : String) : String := ⟨s.data.map Char.toLower⟩

/-- Splits a character list at every occurrence of `sep` (helper for
`jsSplitOnColon`). -/
def splitCharsOn (sep : Char) : List Char → List Char → List (List Char)
  | [], acc => [acc.reverse]
  | c :: rest, acc =>
    if c = sep then acc.reverse :: splitCharsOn sep rest []
    else splitCharsOn sep rest (c :: acc)

/-- JavaScript `s.split(':')` (no limit argument). -/
def jsSplitOnColon (s : String) : List String :=
  (splitCharsOn ':' s.data []).map List.asString

/-- Value of a decimal digit character, `none` for a non-digit. -/
def decDigit? (c : Char) : Option ℕ :=
  if c.isDigit then some (c.toNat - 48) else none

/-- JavaScript `Number(part)` on a split part, restricted to the outcomes
the service can observe: a string of decimal digits yields its value, the
empty string yields 0, and anything else yields NaN, modelled as `none`
(every comparison against NaN is false, which is how `none` is consumed). -/
def jsNumberNat? (s : String) : Option ℕ :=
  s.data.foldl
    (fun acc c =>
      match acc, decDigit? c with
      | some n, some d => some (n * 10 + d)
      | _, _ => none)
    (some 0)

/-! ## Data model -/

/-- Latitude/longitude pair in decimal degrees. -/
structure GeoLocation where
  latitude : ℚ
  longitude : ℚ
deriving DecidableEq, Repr, Inhabited

/-- One weekday entry of a drop point's operating-hours table. The source
fields are named `open` and `close`; `open` is a Lean keyword, hence the
`Time` suffix. -/
structure DayHours where
  openTime : String
  closeTime : String
deriving DecidableEq, Repr, Inhabited

/-- A drop point row. `operatingHours` and `crateInventory` are nullable
JSON columns: a weekday-name-keyed table of open/close times, and a
crop-type-keyed table of crate counts. -/
structure DropPoint where
  id : String
  name : String
  address : String
  district : String
  latitude : ℚ
  longitude : ℚ
  isActive : Bool
  operatingHours : Option (List (String × DayHours))
  crateInventory : Option (List (String × ℤ))
deriving DecidableEq, Repr, Inhabited

/-- A time-slot capacity row. -/
structure TimeSlotCapacity where
  id : ℕ
  dropPointId : String
  slotDate : DateTime
  slotStartHour : ℕ
  slotEndHour : ℕ
  maxCapacityKg : ℤ
  usedCapacityKg : ℤ
deriving DecidableEq, Repr, Inhabited

/-- A drop-point assignment row (one per listing). -/
structure DropPointAssignment where
  id : ℕ
  listingId : ℤ
  dropPointId : String
  farmerId : ℤ
  farmerLatitude : ℚ
  farmerLongitude : ℚ
  distanceKm : ℚ
  pickupWindowStart : DateTime
  pickupWindowEnd : DateTime
  cratesNeeded : ℤ
  status : String
  changeReason : Option String
  previousDropPointId : Option String
deriving DecidableEq, Repr, Inhabited

/-- The storage collaborator's state: the three tables touched by the
assignment core, plus autoincrement counters for the two tables the core
inserts into. A freshly provisioned database has counters at 1. -/
structure StoreState where
  dropPoints : List DropPoint
  slots : List TimeSlotCapacity
  assignments : List DropPointAssignment
  nextSlotId : ℕ
  nextAssignmentId : ℕ
deriving DecidableEq, Repr, Inhabited

/-- A drop point annotated with its distance from the query location
(`DropPointWithDistance` in the repository). -/
structure DropPointWithDistance where
  dropPoint : DropPoint
  distanceKm : ℚ
deriving DecidableEq, Repr, Inhabited

/-! ## Repository (`drop-point-repository.ts`) -/

/-- JavaScript `Math.round(q * 100) / 100`, the two-decimal rounding the
repository applies to distances. `Math.round` rounds half-up toward
positive infinity: `round x = ⌊x + 1/2⌋`. Written over numerator and
denominator so it reduces in the kernel; `jsRound2_eq` below states the
equation in floor form. -/
def jsRound2 (q : ℚ) : ℚ :=
  mkRat ((2 * (q.num * 100) + q.den) / (2 * q.den)) 100

/-- Repository `findById`: `findUnique` on the drop-point id. -/
def findById (s : StoreState) (id : String) : Option DropPoint :=
  s.dropPoints.find? (fun dp => dp.id == id)

/-- Candidate ranking order: ascending annotated distance. -/
def byDistance (a b : DropPointWithDistance) : Prop :=
  a.distanceKm ≤ b.distanceKm

instance : DecidableRel byDistance := fun a b =>
  inferInstanceAs (Decidable (a.distanceKm ≤ b.distanceKm))

instance : IsTotal DropPointWithDistance byDistance :=
  ⟨fun a b => le_total a.distanceKm b.distanceKm⟩

instance : IsTrans DropPointWithDistance byDistance :=
  ⟨fun _ _ _ hab hbc => le_trans hab hbc⟩

/-- Repository `findNearby` (the service always calls it without
`includeInactive`, so only active points are fetched): annotate every
active point with its distance from `location`, keep those within
`radiusKm`, sort ascending by distance (stable sort), truncate to `limit`,
and round the reported distances to two decimals. -/
def findNearby (dist : GeoLocation → GeoLocation → ℚ) (s : StoreState)
    (location : GeoLocation) (radiusKm : ℚ) (limit : ℕ) :
    List DropPointWithDistance :=
  let allDropPoints := s.dropPoints.filter (fun dp => dp.isActive)
  let withDistance := allDropPoints.map
    (fun dp => DropPointWithDistance.mk dp
      (dist location ⟨dp.latitude, dp.longitude⟩))
  let inRadius := withDistance.filter (fun dp => dp.distanceKm ≤ radiusKm)
  let sorted := List.insertionSort byDistance inRadius
  let limited := sorted.take limit
  limited.map (fun dp => { dp with distanceKm := jsRound2 dp.distanceKm })

/-- Key predicate of the slot table lookup in `checkSlotCapacity`. -/
def slotMatches (dropPointId : String) (date : DateTime) (startHour : ℕ)
    (sl : TimeSlotCapacity) : Bool :=
  sl.dropPointId == dropPointId && sl.slotDate == date
    && sl.slotStartHour == startHour

/-- Result record of `checkSlotCapacity`. -/
structure CapacityCheckResult where
  hasCapacity : Bool
  availableKg : ℤ
  slot : Option TimeSlotCapacity
deriving DecidableEq, Repr, Inhabited

/-- Repository `checkSlotCapacity`: find the slot for
(`dropPointId`, `date`, `startHour`); when absent, create it with default
maximum 1000 kg and zero used capacity (a state mutation). Then report the
remaining capacity and whether it covers `requiredKg`. -/
def checkSlotCapacity (s : StoreState) (dropPointId : String)
    (date : DateTime) (startHour : ℕ) (requiredKg : ℤ) :
    CapacityCheckResult × StoreState :=
  let found :=
    match s.slots.find? (slotMatches dropPointId date startHour) with
    | some slot => (slot, s)
    | none =>
      let slot : TimeSlotCapacity :=
        { id := s.nextSlotId, dropPointId := dropPointId, slotDate := date
          slotStartHour := startHour, slotEndHour := startHour + 2
          maxCapacityKg := 1000, usedCapacityKg := 0 }
      (slot, { s with slots := s.slots ++ [slot], nextSlotId := s.nextSlotId + 1 })
  let slot := found.1
  let availableKg := slot.maxCapacityKg - slot.usedCapacityKg
  ({ hasCapacity := decide (availableKg ≥ requiredKg)
     availableKg := availableKg, slot := some slot }, found.2)

/-- Increment applied by `reserveCapacity` to the slots whose id matches. -/
def incrSlot (slotId : ℕ) (reserveKg : ℤ) (sl : TimeSlotCapacity) :
    TimeSlotCapacity :=
  if sl.id == slotId then
    { sl with usedCapacityKg := sl.usedCapacityKg + reserveKg }
  else sl

/-- Repository `reserveCapacity`: atomically increment the used capacity of
the slot with the given id by `reserveKg`. -/
def reserveCapacity (s : StoreState) (slotId : ℕ) (reserveKg : ℤ) :
    StoreState :=
  { s with slots := s.slots.map (incrSlot slotId reserveKg) }

/-- Result record of `checkCrateAvailability`. -/
structure CrateCheckResult where
  hasAvailability : Bool
  availableCrates : ℤ
deriving DecidableEq, Repr, Inhabited

/-- Repository `checkCrateAvailability`: re-fetch the drop point by id; with
no point or a null inventory report no availability; otherwise read the
count under the lower-cased crop type, defaulting to 0 when the key is
absent, and compare with `requiredCrates`. -/
def checkCrateAvailability (s : StoreState) (dropPointId : String)
    (cropType : String) (requiredCrates : ℤ) : CrateCheckResult :=
  match (findById s dropPointId).bind (fun dp => dp.crateInventory) with
  | none => { hasAvailability := false, availableCrates := 0 }
  | some inventory =>
    let availableCrates := (inventory.lookup (jsToLower cropType)).getD 0
    { hasAvailability := decide (availableCrates ≥ requiredCrates)
      availableCrates := availableCrates }

/-- Input record of the repository `createAssignment`. -/
structure CreateAssignmentInput where
  listingId : ℤ
  dropPointId : String
  farmerId : ℤ
  farmerLocation : GeoLocation
  distanceKm : ℚ
  pickupWindowStart : DateTime
  pickupWindowEnd : DateTime
  cratesNeeded : ℤ
deriving DecidableEq, Repr, Inhabited

/-- Repository `createAssignment`: insert a new assignment row with status
`ASSIGNED` and a fresh autoincrement id. -/
def createAssignment (s : StoreState) (input : CreateAssignmentInput) :
    DropPointAssignment × StoreState :=
  let a : DropPointAssignment :=
    { id := s.nextAssignmentId, listingId := input.listingId
      dropPointId := input.dropPointId, farmerId := input.farmerId
      farmerLatitude := input.farmerLocation.latitude
      farmerLongitude := input.farmerLocation.longitude
      distanceKm := input.distanceKm
      pickupWindowStart := input.pickupWindowStart
      pickupWindowEnd := input.pickupWindowEnd
      cratesNeeded := input.cratesNeeded, status := "ASSIGNED"
      changeReason := none, previousDropPointId := none }
  (a, { s with
        assignments := s.assignments ++ [a],
        nextAssignmentId := s.nextAssignmentId + 1 })

/-- Repository `getAssignmentWithDropPoint`: `findUnique` on the listing id
with the drop-point relation included (the foreign key always resolves in a
consistent database; an unresolved key yields `none` here). -/
def getAssignmentWithDropPoint (s : StoreState) (listingId : ℤ) :
    Option (DropPointAssignment × DropPoint) :=
  (s.assignments.find? (fun a => a.listingId == listingId)).bind
    (fun a => (findById s a.dropPointId).map (fun dp => (a, dp)))

/-- Subset of assignment fields an `updateAssignment` call may set
(`Partial` update data in the source; `none` means the field is absent from
the update and keeps its stored value). -/
structure AssignmentUpdate where
  dropPointId : Option String := none
  pickupWindowStart : Option DateTime := none
  pickupWindowEnd : Option DateTime := none
  status : Option String := none
  changeReason : Option String := none
  previousDropPointId : Option String := none
deriving DecidableEq, Repr, Inhabited

/-- Applies an `AssignmentUpdate` to one assignment row. -/
def applyUpdate (u : AssignmentUpdate) (a : DropPointAssignment) :
    DropPointAssignment :=
  { a with
    dropPointId := u.dropPointId.getD a.dropPointId
    pickupWindowStart := u.pickupWindowStart.getD a.pickupWindowStart
    pickupWindowEnd := u.pickupWindowEnd.getD a.pickupWindowEnd
    status := u.status.getD a.status
    changeReason :=
      match u.changeReason with
      | some r => some r
      | none => a.changeReason
    previousDropPointId :=
      match u.previousDropPointId with
      | some p => some p
      | none => a.previousDropPointId }

/-- Repository `updateAssignment`: update the row keyed by the listing id
(the service only calls it after checking the row exists). -/
def updateAssignment (s : StoreState) (listingId : ℤ)
    (u : AssignmentUpdate) : StoreState :=
  { s with
    assignments := s.assignments.map
      (fun a => if a.listingId == listingId then applyUpdate u a else a) }

/-! ## Service (`drop-point-assignment-service.ts`) -/

/-- Service error (`DropPointAssignmentError`): message and machine code. -/
structure DropPointAssignmentError where
  message : String
  code : String
deriving DecidableEq, Repr, Inhabited

/-- A `RangeError` raised by the JavaScript runtime (here: by
`Intl.DateTimeFormat` option validation inside `toLocaleDateString`). -/
structure JsRangeError where
  message : String
deriving DecidableEq, Repr, Inhabited

/-- Service constant `DEFAULT_SEARCH_RADIUS_KM`. -/
def DEFAULT_SEARCH_RADIUS_KM : ℚ := 20

/-- Service constant `CRATES_PER_50KG`. -/
def CRATES_PER_50KG : ℤ := 1

/-- Service constant `DEFAULT_TIME_SLOT_START_HOUR` (7 AM). -/
def DEFAULT_TIME_SLOT_START_HOUR : ℕ := 7

/-- Service constant `DEFAULT_TIME_SLOT_DURATION_HOURS` (7–9 AM). -/
def DEFAULT_TIME_SLOT_DURATION_HOURS : ℕ := 2

/-- Input of `assignDropPoint`. A `none` preferred date selects the next
business day relative to the ambient clock. -/
structure AssignDropPointInput where
  listingId : ℤ
  farmerId : ℤ
  farmerLocation : GeoLocation
  cropType : String
  quantityKg : ℤ
  preferredDate : Option DateTime := none
deriving DecidableEq, Repr, Inhabited

/-- Public drop-point fields returned inside an assignment result. -/
structure DropPointSummary where
  id : String
  name : String
  address : String
  location : GeoLocation
  distanceKm : ℚ
deriving DecidableEq, Repr, Inhabited

/-- Pickup window of an assignment result. The source calls the second
field `end`, a Lean keyword, hence `endTime`. -/
structure PickupWindow where
  start : DateTime
  endTime : DateTime
deriving DecidableEq, Repr, Inhabited

/-- Result shape shared by `assignDropPoint`, `getAssignment` and
`reassignDropPoint`. -/
structure DropPointAssignmentResult where
  assignment : DropPointAssignment
  dropPoint : DropPointSummary
  pickupWindow : PickupWindow
  cratesNeeded : ℤ
deriving DecidableEq, Repr, Inhabited

/-- Nearby-point info returned by `getNearbyDropPoints`. -/
structure NearbyDropPointInfo where
  id : String
  name : String
  address : String
  location : GeoLocation
  distanceKm : ℚ
  isOpen : Bool
deriving DecidableEq, Repr, Inhabited

/-- Private helper `getNextBusinessDay`: tomorrow at local midnight,
advanced one more day when that lands on Sunday (weekday 0). -/
def getNextBusinessDay (now : DateTime) : DateTime :=
  let tomorrow : DateTime :=
    { day := now.day + 1, hour := 0, minute := 0, second := 0, ms := 0 }
  if jsGetDay tomorrow == 0 then { tomorrow with day := tomorrow.day + 1 }
  else tomorrow

/-- Preferred-date resolution of `assignDropPoint`: the caller's date, or
the next business day computed from the ambient clock `now`. -/
def resolvePreferredDate (now : DateTime) (input : AssignDropPointInput) :
    DateTime :=
  input.preferredDate.getD (getNextBusinessDay now)

/-- Crates-needed computation of `assignDropPoint`:
`Math.ceil(quantityKg / 50) * CRATES_PER_50KG`. -/
def cratesNeededFor (quantityKg : ℤ) : ℤ :=
  intCeilDiv quantityKg 50 * CRATES_PER_50KG

/-- Candidate scan of `assignDropPoint` (step 3 in the source): walk the
distance-sorted candidates; for each, run the capacity check (which may
lazily create the slot) and, when it passes, the crate check; stop at the
first candidate passing both, remembering it and the id of its slot.
Returns the selected candidate (if any), the remembered slot id, and the
state as mutated by the capacity checks. -/
def scanCandidates (s : StoreState) (cands : List DropPointWithDistance)
    (preferredDate : DateTime) (quantityKg : ℤ) (cropType : String)
    (cratesNeeded : ℤ) :
    Option DropPointWithDistance × Option ℕ × StoreState :=
  match cands with
  | [] => (none, none, s)
  | dp :: rest =>
    let checked := checkSlotCapacity s dp.dropPoint.id preferredDate
      DEFAULT_TIME_SLOT_START_HOUR quantityKg
    if !checked.1.hasCapacity then
      scanCandidates checked.2 rest preferredDate quantityKg cropType cratesNeeded
    else if !(checkCrateAvailability checked.2 dp.dropPoint.id cropType
        cratesNeeded).hasAvailability then
      scanCandidates checked.2 rest preferredDate quantityKg cropType cratesNeeded
    else
      (some dp, checked.1.slot.map (fun sl => sl.id), checked.2)

/-- Candidate selection of `assignDropPoint` (steps 3–4): the scan's first
feasible candidate, or — fallback — the nearest candidate `dp0` regardless
of constraints, re-resolving its capacity slot for bookkeeping without
re-running the crate check. -/
def selectDropPoint (s : StoreState) (cands : List DropPointWithDistance)
    (dp0 : DropPointWithDistance) (preferredDate : DateTime)
    (quantityKg : ℤ) (cropType : String) (cratesNeeded : ℤ) :
    DropPointWithDistance × Option ℕ × StoreState :=
  match scanCandidates s cands preferredDate quantityKg cropType cratesNeeded with
  | (some dp, slotId, s1) => (dp, slotId, s1)
  | (none, _, s1) =>
    let checked := checkSlotCapacity s1 dp0.dropPoint.id preferredDate
      DEFAULT_TIME_SLOT_START_HOUR quantityKg
    (dp0, checked.1.slot.map (fun sl => sl.id), checked.2)

/-- Service `assignDropPoint`. Returns the result (or the error the call
throws) together with the final storage state. The `slotId` guard is the
source's truthiness test `if (slotId)`: no reservation happens for a null
— or zero — slot id. -/
def assignDropPoint (dist : GeoLocation → GeoLocation → ℚ) (s : StoreState)
    (now : DateTime) (input : AssignDropPointInput) :
    Except DropPointAssignmentError DropPointAssignmentResult × StoreState :=
  let preferredDate := resolvePreferredDate now input
  let cratesNeeded := cratesNeededFor input.quantityKg
  let nearby := findNearby dist s input.farmerLocation DEFAULT_SEARCH_RADIUS_KM 20
  match nearby with
  | [] =>
    (.error { message := "No drop points found within search radius"
              code := "NO_DROP_POINTS" }, s)
  | dp0 :: _ =>
    let selected := selectDropPoint s nearby dp0 preferredDate
      input.quantityKg input.cropType cratesNeeded
    let assignedDropPoint := selected.1
    let s2 :=
      match selected.2.1 with
      | some slotId =>
        if slotId == 0 then selected.2.2
        else reserveCapacity selected.2.2 slotId input.quantityKg
      | none => selected.2.2
    let pickupWindowStart := jsSetHours preferredDate DEFAULT_TIME_SLOT_START_HOUR
    let pickupWindowEnd := jsSetHours preferredDate
      (DEFAULT_TIME_SLOT_START_HOUR + DEFAULT_TIME_SLOT_DURATION_HOURS)
    let created := createAssignment s2
      { listingId := input.listingId
        dropPointId := assignedDropPoint.dropPoint.id
        farmerId := input.farmerId, farmerLocation := input.farmerLocation
        distanceKm := assignedDropPoint.distanceKm
        pickupWindowStart := pickupWindowStart
        pickupWindowEnd := pickupWindowEnd, cratesNeeded := cratesNeeded }
    (.ok
      { assignment := created.1
        dropPoint :=
          { id := assignedDropPoint.dropPoint.id
            name := assignedDropPoint.dropPoint.name
            address := assignedDropPoint.dropPoint.address
            location := ⟨assignedDropPoint.dropPoint.latitude,
              assignedDropPoint.dropPoint.longitude⟩
            distanceKm := assignedDropPoint.distanceKm }
        pickupWindow := ⟨pickupWindowStart, pickupWindowEnd⟩
        cratesNeeded := cratesNeeded }, created.2)

/-- Service `getAssignment`: hydrate the stored assignment for a listing
into the shared result shape (`none` when the listing has none). -/
def getAssignmentResult (s : StoreState) (listingId : ℤ) :
    Option DropPointAssignmentResult :=
  (getAssignmentWithDropPoint s listingId).map
    (fun p =>
      { assignment := p.1
        dropPoint :=
          { id := p.2.id, name := p.2.name, address := p.2.address
            location := ⟨p.2.latitude, p.2.longitude⟩
            distanceKm := p.1.distanceKm }
        pickupWindow := ⟨p.1.pickupWindowStart, p.1.pickupWindowEnd⟩
        cratesNeeded := p.1.cratesNeeded })

/-- Service `reassignDropPoint`: require an existing assignment and a
resolvable new drop point, apply the four-field update, then re-read and
return the hydrated assignment, failing with `UPDATE_FAILED` when the
re-read comes back empty. -/
def reassignDropPoint (s : StoreState) (listingId : ℤ)
    (newDropPointId : String) (changeReason : String) :
    Except DropPointAssignmentError DropPointAssignmentResult × StoreState :=
  match getAssignmentWithDropPoint s listingId with
  | none =>
    (.error { message := "No existing assignment found", code := "NOT_FOUND" }, s)
  | some existing =>
    match findById s newDropPointId with
    | none =>
      (.error { message := "New drop point not found"
                code := "DROP_POINT_NOT_FOUND" }, s)
    | some _ =>
      let s1 := updateAssignment s listingId
        { dropPointId := some newDropPointId, status := some "REASSIGNED"
          changeReason := some changeReason
          previousDropPointId := some existing.1.dropPointId }
      match getAssignmentResult s1 listingId with
      | none =>
        (.error { message := "Failed to update assignment"
                  code := "UPDATE_FAILED" }, s1)
      | some updated => (.ok updated, s1)

/-- Weekday option values `Intl.DateTimeFormat` accepts (ECMA-402
`GetOption` for the `weekday` property). -/
def jsWeekdayOptionValues : List String := ["narrow", "short", "long"]

/-- English weekday names in each valid format, Sunday first. -/
def jsWeekdayNames (format : String) : List String :=
  if format == "long" then
    ["Sunday", "Monday", "Tuesday", "Wednesday", "Thursday", "Friday", "Saturday"]
  else if format == "short" then
    ["Sun", "Mon", "Tue", "Wed", "Thu", "Fri", "Sat"]
  else
    ["S", "M", "T", "W", "T", "F", "S"]

/-- JavaScript `date.toLocaleDateString('en-US', { weekday: fmt })`:
per ECMA-402, a `weekday` option value outside `narrow`/`short`/`long`
raises a `RangeError` before any formatting happens. -/
def jsToLocaleWeekday (format : String) (d : DateTime) :
    Except JsRangeError String :=
  if jsWeekdayOptionValues.contains format then
    .ok ((jsWeekdayNames format).getD (jsGetDay d).toNat "Sunday")
  else
    .error { message := "Value " ++ format ++
      " out of range for Intl.DateTimeFormat options property weekday" }

/-- Minute-of-day value of an `HH:MM` string via `split(':')` and `Number`:
`none` models a NaN component (and makes every comparison false, as in the
source). -/
def parseMinutes (s : String) : Option ℕ :=
  match jsSplitOnColon s with
  | h :: m :: _ => do
    let hn ← jsNumberNat? h
    let mn ← jsNumberNat? m
    pure (hn * 60 + mn)
  | _ => none

/-- Private helper `isDropPointOpen`: closed when the table is null, has no
entry for `dayOfWeek`, or the entry is the `00:00`–`00:00` sentinel;
otherwise open iff the current minute of day lies in the half-open
interval from the open time (inclusive) to the close time (exclusive). -/
def isDropPointOpen (operatingHours : Option (List (String × DayHours)))
    (dayOfWeek : String) (now : DateTime) : Bool :=
  match operatingHours with
  | none => false
  | some table =>
    match table.lookup dayOfWeek with
    | none => false
    | some todayHours =>
      if todayHours.openTime == "00:00" && todayHours.closeTime == "00:00" then
        false
      else
        let currentTime := now.hour * 60 + now.minute
        match parseMinutes todayHours.openTime,
            parseMinutes todayHours.closeTime with
        | some openTime, some closeTime =>
          decide (openTime ≤ currentTime) && decide (currentTime < closeTime)
        | _, _ => false

/-- Service `getNearbyDropPoints`: fetch up to 10 active points within the
radius and annotate each with an is-open flag for the current weekday. The
weekday string is requested with the invalid option value `'lowercase'`,
which `toLocaleDateString` rejects with a `RangeError`. -/
def getNearbyDropPoints (dist : GeoLocation → GeoLocation → ℚ)
    (s : StoreState) (location : GeoLocation) (radiusKm : ℚ)
    (now : DateTime) : Except JsRangeError (List NearbyDropPointInfo) :=
  let nearby := findNearby dist s location radiusKm 10
  match jsToLocaleWeekday "lowercase" now with
  | .error e => .error e
  | .ok dayOfWeek =>
    .ok (nearby.map
      (fun dp =>
        { id := dp.dropPoint.id, name := dp.dropPoint.name
          address := dp.dropPoint.address
          location := ⟨dp.dropPoint.latitude, dp.dropPoint.longitude⟩
          distanceKm := dp.distanceKm
          isOpen := isDropPointOpen dp.dropPoint.operatingHours dayOfWeek now }))

/-! ## Verification layer: feasibility predicates and the scan frame -/

/-- Capacity feasibility of a candidate, read off a base state: the check
`assignDropPoint` runs against the slot for (`dropPointId`, `date`,
`startHour`), with the lazily created default slot (1000 kg max, 0 used)
standing in when none exists yet. -/
def capacityFeasible (s : StoreState) (dropPointId : String)
    (date : DateTime) (startHour : ℕ) (requiredKg : ℤ) : Bool :=
  match s.slots.find? (slotMatches dropPointId date startHour) with
  | some slot => decide (slot.maxCapacityKg - slot.usedCapacityKg ≥ requiredKg)
  | none => decide ((1000 : ℤ) - 0 ≥ requiredKg)

/-- Both checks the candidate scan runs, as predicates on the pre-scan
state. -/
def candidateFeasible (s : StoreState) (preferredDate : DateTime)
    (quantityKg : ℤ) (cropType : String) (cratesNeeded : ℤ)
    (dp : DropPointWithDistance) : Bool :=
  capacityFeasible s dp.dropPoint.id preferredDate
      DEFAULT_TIME_SLOT_START_HOUR quantityKg
    && (checkCrateAvailability s dp.dropPoint.id cropType
      cratesNeeded).hasAvailability

/-- State evolution a candidate scan may produce: drop points and
assignments untouched, and the slot table extended only by freshly created
default slots whose ids are drawn in increasing order from the slot
counter. -/
def ScanFrame (s s' : StoreState) : Prop :=
  s'.dropPoints = s.dropPoints ∧
  s'.assignments = s.assignments ∧
  s'.nextAssignmentId = s.nextAssignmentId ∧
  s.nextSlotId ≤ s'.nextSlotId ∧
  ∃ extra, s'.slots = s.slots ++ extra ∧
    (∀ sl ∈ extra, sl.maxCapacityKg = 1000 ∧ sl.usedCapacityKg = 0 ∧
      s.nextSlotId ≤ sl.id ∧ sl.id < s'.nextSlotId) ∧
    extra.Pairwise (fun a b => a.id < b.id)

theorem scanFrame_refl (s : StoreState) : ScanFrame s s :=
  ⟨rfl, rfl, rfl, le_refl _, [], by simp, by simp, List.Pairwise.nil⟩

theorem ScanFrame.trans {s₁ s₂ s₃ : StoreState} (h₁ : ScanFrame s₁ s₂)
    (h₂ : ScanFrame s₂ s₃) : ScanFrame s₁ s₃ := by
  obtain ⟨hd₁, ha₁, hn₁, hle₁, e₁, hs₁, he₁, hp₁⟩ := h₁
  obtain ⟨hd₂, ha₂, hn₂, hle₂, e₂, hs₂, he₂, hp₂⟩ := h₂
  refine ⟨hd₂.trans hd₁, ha₂.trans ha₁, hn₂.trans hn₁, hle₁.trans hle₂,
    e₁ ++ e₂, by rw [hs₂, hs₁, List.append_assoc], ?_, ?_⟩
  · intro sl hsl
    rcases List.mem_append.mp hsl with h | h
    · obtain ⟨hm, hu, hlo, hhi⟩ := he₁ sl h
      exact ⟨hm, hu, hlo, lt_of_lt_of_le hhi hle₂⟩
    · obtain ⟨hm, hu, hlo, hhi⟩ := he₂ sl h
      exact ⟨hm, hu, le_trans hle₁ hlo, hhi⟩
  · refine List.pairwise_append.mpr ⟨hp₁, hp₂, ?_⟩
    intro a ha b hb
    exact lt_of_lt_of_le (he₁ a ha).2.2.2 (he₂ b hb).2.2.1

theorem checkSlotCapacity_spec (s : StoreState) (dropPointId : String)
    (date : DateTime) (startHour : ℕ) (requiredKg : ℤ) :
    ∃ slot,
      (checkSlotCapacity s dropPointId date startHour requiredKg).1.slot
        = some slot ∧
      slot ∈ (checkSlotCapacity s dropPointId date startHour requiredKg).2.slots ∧
      slot.dropPointId = dropPointId ∧ slot.slotDate = date ∧
      slot.slotStartHour = startHour ∧
      ScanFrame s (checkSlotCapacity s dropPointId date startHour requiredKg).2 := by
  cases hf : s.slots.find? (slotMatches dropPointId date startHour) with
  | some slot =>
    have hp := List.find?_some hf
    have hkeys : slot.dropPointId = dropPointId ∧ slot.slotDate = date ∧
        slot.slotStartHour = startHour := by
      have := hp
      simp only [slotMatches, Bool.and_eq_true, beq_iff_eq] at this
      exact ⟨this.1.1, this.1.2, this.2⟩
    refine ⟨slot, ?_, ?_, hkeys.1, hkeys.2.1, hkeys.2.2, ?_⟩
    · simp [checkSlotCapacity, hf]
    · simp only [checkSlotCapacity, hf]
      exact List.mem_of_find?_eq_some hf
    · simp only [checkSlotCapacity, hf]
      exact scanFrame_refl s
  | none =>
    refine ⟨⟨s.nextSlotId, dropPointId, date, startHour, startHour + 2, 1000, 0⟩,
      ?_, ?_, rfl, rfl, rfl, ?_⟩
    · simp [checkSlotCapacity, hf]
    · simp [checkSlotCapacity, hf]
    · simp only [checkSlotCapacity, hf]
      exact ⟨rfl, rfl, rfl, Nat.le_succ _,
        [⟨s.nextSlotId, dropPointId, date, startHour, startHour + 2, 1000, 0⟩],
        rfl, by simp, by simp⟩

theorem checkSlotCapacity_hasCapacity {s₀ s : StoreState} (h : ScanFrame s₀ s)
    (dropPointId : String) (date : DateTime) (startHour : ℕ)
    (requiredKg : ℤ) :
    (checkSlotCapacity s dropPointId date startHour requiredKg).1.hasCapacity
      = capacityFeasible s₀ dropPointId date startHour requiredKg := by
  obtain ⟨-, -, -, -, extra, hs, he, -⟩ := h
  unfold checkSlotCapacity capacityFeasible
  rw [hs, List.find?_append]
  cases h₀ : s₀.slots.find? (slotMatches dropPointId date startHour) with
  | some sl => simp
  | none =>
    cases he' : extra.find? (slotMatches dropPointId date startHour) with
    | some sl =>
      obtain ⟨hm, hu, -, -⟩ := he sl (List.mem_of_find?_eq_some he')
      simp [hm, hu]
    | none => simp

theorem checkCrateAvailability_congr {s₀ s : StoreState}
    (h : s.dropPoints = s₀.dropPoints) (dropPointId cropType : String)
    (requiredCrates : ℤ) :
    checkCrateAvailability s dropPointId cropType requiredCrates =
      checkCrateAvailability s₀ dropPointId cropType requiredCrates := by
  unfold checkCrateAvailability findById
  rw [h]

theorem scanCandidates_spec (preferredDate : DateTime) (quantityKg : ℤ)
    (cropType : String) (cratesNeeded : ℤ)
    (cands : List DropPointWithDistance) :
    ∀ (s₀ s : StoreState), ScanFrame s₀ s →
      ScanFrame s₀
        (scanCandidates s cands preferredDate quantityKg cropType cratesNeeded).2.2 ∧
      (scanCandidates s cands preferredDate quantityKg cropType cratesNeeded).1 =
        cands.find?
          (candidateFeasible s₀ preferredDate quantityKg cropType cratesNeeded) ∧
      (∀ dp,
        (scanCandidates s cands preferredDate quantityKg cropType cratesNeeded).1
          = some dp →
        ∃ slot,
          (scanCandidates s cands preferredDate quantityKg cropType cratesNeeded).2.1
            = some slot.id ∧
          slot ∈ (scanCandidates s cands preferredDate quantityKg cropType
            cratesNeeded).2.2.slots ∧
          slot.dropPointId = dp.dropPoint.id ∧ slot.slotDate = preferredDate ∧
          slot.slotStartHour = DEFAULT_TIME_SLOT_START_HOUR) := by
  induction cands with
  | nil =>
    intro s₀ s h
    exact ⟨h, rfl, by intro dp hdp; cases hdp⟩
  | cons dp rest ih =>
    intro s₀ s h
    obtain ⟨slot, hslot, hmem, hsid, hsdate, hshour, hframe1⟩ :=
      checkSlotCapacity_spec s dp.dropPoint.id preferredDate
        DEFAULT_TIME_SLOT_START_HOUR quantityKg
    have hframe₀ := h.trans hframe1
    have hcap := checkSlotCapacity_hasCapacity h dp.dropPoint.id preferredDate
      DEFAULT_TIME_SLOT_START_HOUR quantityKg
    have hcrate := checkCrateAvailability_congr hframe₀.1
      dp.dropPoint.id cropType cratesNeeded
    simp only [scanCandidates, hcap, hcrate, List.find?_cons, candidateFeasible]
    by_cases hc : capacityFeasible s₀ dp.dropPoint.id preferredDate
        DEFAULT_TIME_SLOT_START_HOUR quantityKg = true
    · by_cases hcr : (checkCrateAvailability s₀ dp.dropPoint.id cropType
          cratesNeeded).hasAvailability = true
      · simp only [hc, hcr, Bool.not_true, Bool.false_eq_true, if_false,
          Bool.and_self]
        refine ⟨hframe₀, trivial, ?_⟩
        intro dp' h'
        cases h'
        refine ⟨slot, ?_, hmem, hsid, hsdate, hshour⟩
        rw [hslot]
        rfl
      · simp only [Bool.not_eq_true] at hcr
        simp only [hc, hcr, Bool.not_true, Bool.not_false, Bool.false_eq_true,
          if_false, if_true, Bool.and_false]
        exact ih s₀ _ hframe₀
    · simp only [Bool.not_eq_true] at hc
      simp only [hc, Bool.not_false, if_true, Bool.false_and]
      exact ih s₀ _ hframe₀

theorem selectDropPoint_spec (s : StoreState)
    (cands : List DropPointWithDistance) (dp0 : DropPointWithDistance)
    (preferredDate : DateTime) (quantityKg : ℤ) (cropType : String)
    (cratesNeeded : ℤ) :
    ∃ sel sid s',
      selectDropPoint s cands dp0 preferredDate quantityKg cropType cratesNeeded
        = (sel, some sid, s') ∧
      ScanFrame s s' ∧
      (∃ slot ∈ s'.slots, sid = slot.id ∧
        slot.dropPointId = sel.dropPoint.id ∧ slot.slotDate = preferredDate ∧
        slot.slotStartHour = DEFAULT_TIME_SLOT_START_HOUR) ∧
      (cands.find? (candidateFeasible s preferredDate quantityKg cropType
          cratesNeeded) = some sel ∨
        (cands.find? (candidateFeasible s preferredDate quantityKg cropType
          cratesNeeded) = none ∧ sel = dp0)) := by
  have hspec := scanCandidates_spec preferredDate quantityKg cropType
    cratesNeeded cands s s (scanFrame_refl s)
  rcases hsc : scanCandidates s cands preferredDate quantityKg cropType
    cratesNeeded with ⟨res, sidOpt, st⟩
  rw [hsc] at hspec
  obtain ⟨hframe, hfind, hsel⟩ := hspec
  cases res with
  | some dp =>
    obtain ⟨slot, hsid, hmem, hkid, hkdate, hkhour⟩ := hsel dp rfl
    refine ⟨dp, slot.id, st, ?_, hframe, ⟨slot, hmem, rfl, hkid, hkdate, hkhour⟩,
      Or.inl (by rw [← hfind])⟩
    simp only [selectDropPoint, hsc]
    simp only at hsid
    rw [hsid]
  | none =>
    obtain ⟨slot, hslot, hmem, hkid, hkdate, hkhour, hframe2⟩ :=
      checkSlotCapacity_spec st dp0.dropPoint.id preferredDate
        DEFAULT_TIME_SLOT_START_HOUR quantityKg
    refine ⟨dp0, slot.id,
      (checkSlotCapacity st dp0.dropPoint.id preferredDate
        DEFAULT_TIME_SLOT_START_HOUR quantityKg).2, ?_,
      hframe.trans hframe2, ⟨slot, hmem, rfl, hkid, hkdate, hkhour⟩,
      Or.inr ⟨by rw [← hfind], rfl⟩⟩
    simp only [selectDropPoint, hsc]
    rw [hslot]
    rfl

theorem assignDropPoint_ok_spec (dist : GeoLocation → GeoLocation → ℚ)
    (s : StoreState) (now : DateTime) (input : AssignDropPointInput)
    (dp0 : DropPointWithDistance) (rest : List DropPointWithDistance)
    (hn : findNearby dist s input.farmerLocation DEFAULT_SEARCH_RADIUS_KM 20
      = dp0 :: rest) :
    ∃ sel sid spre r s',
      selectDropPoint s (dp0 :: rest) dp0 (resolvePreferredDate now input)
          input.quantityKg input.cropType (cratesNeededFor input.quantityKg)
        = (sel, some sid, spre) ∧
      ScanFrame s spre ∧
      (∃ slot ∈ spre.slots, sid = slot.id ∧
        slot.dropPointId = sel.dropPoint.id ∧
        slot.slotDate = resolvePreferredDate now input ∧
        slot.slotStartHour = DEFAULT_TIME_SLOT_START_HOUR) ∧
      ((dp0 :: rest).find? (candidateFeasible s (resolvePreferredDate now input)
          input.quantityKg input.cropType (cratesNeededFor input.quantityKg))
        = some sel ∨
       ((dp0 :: rest).find? (candidateFeasible s (resolvePreferredDate now input)
          input.quantityKg input.cropType (cratesNeededFor input.quantityKg))
        = none ∧ sel = dp0)) ∧
      assignDropPoint dist s now input = (.ok r, s') ∧
      r.dropPoint.id = sel.dropPoint.id ∧
      r.dropPoint.name = sel.dropPoint.name ∧
      r.dropPoint.address = sel.dropPoint.address ∧
      r.dropPoint.distanceKm = sel.distanceKm ∧
      r.assignment.dropPointId = sel.dropPoint.id ∧
      r.assignment.status = "ASSIGNED" ∧
      r.assignment.distanceKm = sel.distanceKm ∧
      r.assignment.cratesNeeded = cratesNeededFor input.quantityKg ∧
      r.cratesNeeded = cratesNeededFor input.quantityKg ∧
      r.pickupWindow.start =
        jsSetHours (resolvePreferredDate now input) DEFAULT_TIME_SLOT_START_HOUR ∧
      r.pickupWindow.endTime = jsSetHours (resolvePreferredDate now input)
        (DEFAULT_TIME_SLOT_START_HOUR + DEFAULT_TIME_SLOT_DURATION_HOURS) ∧
      r.assignment.pickupWindowStart = r.pickupWindow.start ∧
      r.assignment.pickupWindowEnd = r.pickupWindow.endTime ∧
      s'.dropPoints = spre.dropPoints ∧
      s'.assignments = spre.assignments ++ [r.assignment] ∧
      (sid = 0 → s'.slots = spre.slots) ∧
      (sid ≠ 0 → s'.slots = spre.slots.map (incrSlot sid input.quantityKg)) := by
  obtain ⟨sel, sid, spre, hseleq, hframe, hslots, hdisj⟩ :=
    selectDropPoint_spec s (dp0 :: rest) dp0 (resolvePreferredDate now input)
      input.quantityKg input.cropType (cratesNeededFor input.quantityKg)
  simp only [assignDropPoint, hn, hseleq]
  by_cases h0 : sid = 0
  · subst h0
    exact ⟨sel, 0, spre, _, _, rfl, hframe, hslots, hdisj, rfl, rfl, rfl,
      rfl, rfl, rfl, rfl, rfl, rfl, rfl, rfl, rfl, rfl, rfl, rfl, rfl,
      fun _ => rfl, fun hne => absurd rfl hne⟩
  · have h0' : (sid == 0) = false := by simpa using h0
    simp only [h0', Bool.false_eq_true, if_false]
    exact ⟨sel, sid, spre, _, _, rfl, hframe, hslots, hdisj, rfl, rfl, rfl,
      rfl, rfl, rfl, rfl, rfl, rfl, rfl, rfl, rfl, rfl, rfl, rfl, rfl,
      fun h => absurd h h0, fun _ => rfl⟩

theorem jsRound2_eq (q : ℚ) :
    jsRound2 q = ((⌊q * 100 + 1/2⌋ : ℤ) : ℚ) / 100 := by
  have hden : ((q.den : ℚ)) ≠ 0 := by exact_mod_cast q.den_ne_zero
  have hnum : (q.num : ℚ) = q * (q.den : ℚ) := by
    rw [← div_eq_iff hden]
    exact Rat.num_div_den q
  have hq : (q * 100 + 1/2 : ℚ)
      = ((2 * (q.num * 100) + (q.den : ℤ) : ℤ) : ℚ) / ((2 * q.den : ℕ) : ℚ) := by
    rw [eq_div_iff (by positivity : ((2 * q.den : ℕ) : ℚ) ≠ 0)]
    push_cast
    rw [hnum]
    ring
  rw [jsRound2, Rat.mkRat_eq_div, hq, Rat.floor_intCast_div_natCast]
  push_cast
  ring_nf

theorem jsRound2_mono {a b : ℚ} (h : a ≤ b) : jsRound2 a ≤ jsRound2 b := by
  rw [jsRound2_eq, jsRound2_eq]
  have hf : ⌊a * 100 + 1/2⌋ ≤ ⌊b * 100 + 1/2⌋ :=
    Int.floor_le_floor (by linarith)
  have hc : ((⌊a * 100 + 1/2⌋ : ℤ) : ℚ) ≤ ((⌊b * 100 + 1/2⌋ : ℤ) : ℚ) := by
    exact_mod_cast hf
  linarith

theorem findNearby_sorted (dist : GeoLocation → GeoLocation → ℚ)
    (s : StoreState) (location : GeoLocation) (radiusKm : ℚ) (limit : ℕ) :
    (findNearby dist s location radiusKm limit).Pairwise
      (fun a b => a.distanceKm ≤ b.distanceKm) := by
  unfold findNearby
  have hsorted := List.sorted_insertionSort byDistance
    (((s.dropPoints.filter (fun dp => dp.isActive)).map
      (fun dp => DropPointWithDistance.mk dp
        (dist location ⟨dp.latitude, dp.longitude⟩))).filter
      (fun dp => dp.distanceKm ≤ radiusKm))
  have htake := List.Pairwise.sublist (List.take_sublist limit _) hsorted
  exact List.pairwise_map.mpr (htake.imp (fun hab => jsRound2_mono hab))

theorem intCeilDiv_eq_ceil (a : ℤ) (b : ℕ) :
    intCeilDiv a ((b : ℕ) : ℤ) = ⌈(a : ℚ) / (b : ℚ)⌉ := by
  have h := Rat.floor_intCast_div_natCast (-a) b
  have hneg : (((-a : ℤ)) : ℚ) / ((b : ℕ) : ℚ) = -((a : ℚ) / (b : ℚ)) := by
    push_cast; ring
  rw [hneg, Int.floor_neg] at h
  rw [intCeilDiv, ← h, neg_neg]

theorem countP_id_eq_one {l : List TimeSlotCapacity} {a : TimeSlotCapacity}
    (hnd : (l.map (fun sl => sl.id)).Nodup) (ha : a ∈ l) :
    l.countP (fun sl => sl.id == a.id) = 1 := by
  induction l with
  | nil => cases ha
  | cons b t ih =>
    rw [List.map_cons, List.nodup_cons] at hnd
    rcases List.mem_cons.mp ha with rfl | hat
    · rw [List.countP_cons_of_pos _ _ (by simp)]
      have hz : t.countP (fun sl => sl.id == a.id) = 0 := by
        rw [List.countP_eq_zero]
        intro x hx
        simp only [beq_iff_eq]
        intro hxa
        exact hnd.1 (hxa ▸ List.mem_map_of_mem _ hx)
      rw [hz]
    · rw [List.countP_cons_of_neg]
      · exact ih hnd.2 hat
      · simp only [beq_iff_eq]
        intro hba
        exact hnd.1 (hba ▸ List.mem_map_of_mem (fun sl => sl.id) hat)

theorem scanFrame_nodup_ids {s spre : StoreState} (h : ScanFrame s spre)
    (hlt : ∀ sl ∈ s.slots, sl.id < s.nextSlotId)
    (hnd : (s.slots.map (fun sl => sl.id)).Nodup) :
    (spre.slots.map (fun sl => sl.id)).Nodup := by
  obtain ⟨-, -, -, -, extra, hs, he, hp⟩ := h
  rw [hs, List.map_append]
  refine List.Nodup.append hnd ?_ ?_
  · exact List.pairwise_map.mpr (hp.imp (fun hlt' => Nat.ne_of_lt hlt'))
  · intro x hx1 hx2
    obtain ⟨sl1, hm1, rfl⟩ := List.mem_map.mp hx1
    obtain ⟨sl2, hm2, heq⟩ := List.mem_map.mp hx2
    have h1 := hlt sl1 hm1
    have h2 := (he sl2 hm2).2.2.1
    omega

theorem find?_map_update {α : Type} (p : α → Bool) (g : α → α)
    (hg : ∀ x, p x = true → p (g x) = true) :
    ∀ (l : List α) (a : α), l.find? p = some a →
      (l.map (fun x => if p x then g x else x)).find? p = some (g a) := by
  intro l
  induction l with
  | nil => intro a h; cases h
  | cons b t ih =>
    intro a h
    rw [List.find?_cons] at h
    by_cases hb : p b = true
    · rw [hb] at h
      injection h with h'
      subst h'
      rw [List.map_cons, List.find?_cons, if_pos hb]
      simp [hg b hb]
    · have hb' : p b = false := by simp [hb]
      rw [hb'] at h
      rw [List.map_cons, if_neg hb, List.find?_cons, hb']
      exact ih a h

/-! ## Concrete fixtures used by witnesses and counterexamples -/

/-- Distance oracle for the fixtures: everything is 0 km apart. -/
def exDist : GeoLocation → GeoLocation → ℚ := fun _ _ => 0

/-- An active drop point with crates for tomatoes. -/
def exDP : DropPoint :=
  { id := "dp-1", name := "Kolar Main Drop Point"
    address := "Station Road, Kolar", district := "Kolar"
    latitude := 13, longitude := 78, isActive := true
    operatingHours := some [("monday", ⟨"06:00", "18:00"⟩)]
    crateInventory := some [("tomato", 100)] }

/-- The same point with a null crate inventory (crate check always fails). -/
def exDPNoCrates : DropPoint :=
  { exDP with
    id := "dp-2", name := "Bangarpet Collection Center"
    crateInventory := none }

/-- One-point store with no slots and no assignments. -/
def exState : StoreState :=
  { dropPoints := [exDP], slots := [], assignments := []
    nextSlotId := 1, nextAssignmentId := 1 }

/-- Store whose single point can never pass the crate check. -/
def exStateNoCrates : StoreState := { exState with dropPoints := [exDPNoCrates] }

/-- Store with no drop points at all. -/
def exEmptyState : StoreState := { exState with dropPoints := [] }

/-- Fixture clock (epoch day 0, 10:00). -/
def exNow : DateTime := ⟨0, 10, 0, 0, 0⟩

/-- Fixture preferred date (epoch day 100, midnight). -/
def exDate : DateTime := ⟨100, 0, 0, 0, 0⟩

/-- Fixture assignment request: 100 kg of tomatoes. -/
def exInput : AssignDropPointInput :=
  { listingId := 1, farmerId := 2, farmerLocation := ⟨13, 78⟩
    cropType := "Tomato", quantityKg := 100, preferredDate := some exDate }

/-- Outcome of the fixture run against `exState`. -/
def exRun := assignDropPoint exDist exState exNow exInput

/-- Result record of the fixture run. -/
def exRes : DropPointAssignmentResult := exRun.1.toOption.get!

/-- Outcome of the fixture run against the crate-less store (fallback path). -/
def exRunFallback := assignDropPoint exDist exStateNoCrates exNow exInput

/-- Result record of the fallback fixture run. -/
def exResFallback : DropPointAssignmentResult := exRunFallback.1.toOption.get!

/-- A stored assignment for the reassignment fixtures. -/
def exAssign : DropPointAssignment :=
  { id := 1, listingId := 5, dropPointId := "dp-1", farmerId := 2
    farmerLatitude := 13, farmerLongitude := 78, distanceKm := 1
    pickupWindowStart := ⟨100, 7, 0, 0, 0⟩, pickupWindowEnd := ⟨100, 9, 0, 0, 0⟩
    cratesNeeded := 2, status := "ASSIGNED", changeReason := none
    previousDropPointId := none }

/-- A second active drop point, target of the fixture reassignment. -/
def exDPB : DropPoint :=
  { exDP with id := "dp-2", name := "Mulbagal Farmer Hub" }

/-- Store holding `exAssign` and both drop points. -/
def exReassignState : StoreState :=
  { dropPoints := [exDP, exDPB], slots := [], assignments := [exAssign]
    nextSlotId := 1, nextAssignmentId := 2 }

/-! ## Claims -/

/-- C1: for every assignment request whose candidate retrieval returns a
non-empty list sorted by ascending distance, `assignDropPoint` selects
exactly the first candidate for which both the capacity check and the
crate check pass; it never selects a farther candidate when a nearer
candidate passes both checks. (The retrieval result is always sorted by
ascending distance — first conjunct — and the selected candidate is the
`find?` of the feasibility predicate, i.e. the first feasible candidate in
that order.) -/
theorem C1_first_feasible_selected (dist : GeoLocation → GeoLocation → ℚ)
    (s : StoreState) (now : DateTime) (input : AssignDropPointInput)
    (dp : DropPointWithDistance)
    (hfind : (findNearby dist s input.farmerLocation DEFAULT_SEARCH_RADIUS_KM
        20).find?
        (candidateFeasible s (resolvePreferredDate now input) input.quantityKg
          input.cropType (cratesNeededFor input.quantityKg)) = some dp) :
    (findNearby dist s input.farmerLocation DEFAULT_SEARCH_RADIUS_KM
      20).Pairwise (fun a b => a.distanceKm ≤ b.distanceKm) ∧
    ∃ r s', assignDropPoint dist s now input = (.ok r, s') ∧
      r.dropPoint.id = dp.dropPoint.id ∧
      r.dropPoint.name = dp.dropPoint.name ∧
      r.dropPoint.distanceKm = dp.distanceKm ∧
      r.assignment.dropPointId = dp.dropPoint.id := by
  refine ⟨findNearby_sorted dist s input.farmerLocation _ _, ?_⟩
  cases hn : findNearby dist s input.farmerLocation DEFAULT_SEARCH_RADIUS_KM 20 with
  | nil => rw [hn] at hfind; cases hfind
  | cons dp0 rest =>
    obtain ⟨sel, sid, spre, r, s', hsel, hframe, hslotEx, hdisj, hA, h6, h7,
      h8, h9, h10, h11, h12, h13, h14, h15, h16, h17, h18, h19, h20, h21,
      h22⟩ := assignDropPoint_ok_spec dist s now input dp0 rest hn
    rw [hn] at hfind
    rcases hdisj with hd | ⟨hd, -⟩
    · rw [hfind] at hd
      injection hd with hd
      subst hd
      exact ⟨r, s', hA, h6, h7, h9, h10⟩
    · rw [hfind] at hd
      cases hd

/-- Witness for C1 at a concrete input: the single candidate passes both
checks and is selected. -/
theorem C1_witness :
    (findNearby exDist exState exInput.farmerLocation DEFAULT_SEARCH_RADIUS_KM
      20).find?
      (candidateFeasible exState (resolvePreferredDate exNow exInput)
        exInput.quantityKg exInput.cropType
        (cratesNeededFor exInput.quantityKg)) = some ⟨exDP, 0⟩ ∧
    ∃ r s', assignDropPoint exDist exState exNow exInput = (.ok r, s') ∧
      r.dropPoint.id = exDP.id := by
  refine ⟨rfl, ?_⟩
  obtain ⟨-, r, s', hA, hid, -⟩ :=
    C1_first_feasible_selected exDist exState exNow exInput ⟨exDP, 0⟩ rfl
  exact ⟨r, s', hA, hid⟩

/-- C2: when no candidate passes both checks, `assignDropPoint` falls back
to the nearest candidate (index 0), re-resolves its capacity slot, and
still returns a successful assignment with status `ASSIGNED`. -/
theorem C2_fallback_nearest (dist : GeoLocation → GeoLocation → ℚ)
    (s : StoreState) (now : DateTime) (input : AssignDropPointInput)
    (dp0 : DropPointWithDistance) (rest : List DropPointWithDistance)
    (hn : findNearby dist s input.farmerLocation DEFAULT_SEARCH_RADIUS_KM 20
      = dp0 :: rest)
    (hnone : (dp0 :: rest).find?
      (candidateFeasible s (resolvePreferredDate now input) input.quantityKg
        input.cropType (cratesNeededFor input.quantityKg)) = none) :
    ∃ r s', assignDropPoint dist s now input = (.ok r, s') ∧
      r.dropPoint.id = dp0.dropPoint.id ∧
      r.assignment.dropPointId = dp0.dropPoint.id ∧
      r.assignment.status = "ASSIGNED" := by
  obtain ⟨sel, sid, spre, r, s', hsel, hframe, hslotEx, hdisj, hA, h6, h7,
    h8, h9, h10, h11, h12, h13, h14, h15, h16, h17, h18, h19, h20, h21,
    h22⟩ := assignDropPoint_ok_spec dist s now input dp0 rest hn
  rcases hdisj with hd | ⟨-, hsel0⟩
  · rw [hnone] at hd
    cases hd
  · subst hsel0
    exact ⟨r, s', hA, h6, h10, h11⟩

/-- Witness for C2 at a concrete input: the only candidate has a null crate
inventory, no candidate is feasible, and the fallback still assigns it. -/
theorem C2_witness :
    findNearby exDist exStateNoCrates exInput.farmerLocation
      DEFAULT_SEARCH_RADIUS_KM 20 = [⟨exDPNoCrates, 0⟩] ∧
    ([⟨exDPNoCrates, 0⟩] : List DropPointWithDistance).find?
      (candidateFeasible exStateNoCrates (resolvePreferredDate exNow exInput)
        exInput.quantityKg exInput.cropType
        (cratesNeededFor exInput.quantityKg)) = none ∧
    ∃ r s', assignDropPoint exDist exStateNoCrates exNow exInput
        = (.ok r, s') ∧
      r.dropPoint.id = exDPNoCrates.id ∧ r.assignment.status = "ASSIGNED" := by
  refine ⟨rfl, rfl, ?_⟩
  obtain ⟨r, s', hA, hid, -, hst⟩ :=
    C2_fallback_nearest exDist exStateNoCrates exNow exInput
      ⟨exDPNoCrates, 0⟩ [] rfl rfl
  exact ⟨r, s', hA, hid, hst⟩

/-- C4 counterexample: at quantity 0 the computed crates-needed is
`ceil(0 / 50) = 0`, not at least 1 — the "always ≥ 1" half of the claim
fails (the code has no explicit minimum-1 clamp). -/
theorem C4_counterexample :
    cratesNeededFor 0 = 0 ∧ ¬(1 ≤ cratesNeededFor 0) := by decide

/-- C4 (amended): the computed crates-needed equals `⌈Q / 50⌉` for every
quantity, and is at least 1 for every positive quantity (in particular
1 ↦ 1, 50 ↦ 1, 51 ↦ 2, 100 ↦ 2); at quantity 0 it is 0. -/
theorem C4_cratesNeeded_ceil :
    (∀ q : ℤ, cratesNeededFor q = ⌈(q : ℚ) / 50⌉) ∧
    (∀ q : ℤ, 1 ≤ q → 1 ≤ cratesNeededFor q) ∧
    cratesNeededFor 1 = 1 ∧ cratesNeededFor 50 = 1 ∧
    cratesNeededFor 51 = 2 ∧ cratesNeededFor 100 = 2 := by
  have hceil : ∀ q : ℤ, cratesNeededFor q = ⌈(q : ℚ) / 50⌉ := by
    intro q
    have h := intCeilDiv_eq_ceil q 50
    rw [show (((50 : ℕ) : ℤ)) = (50 : ℤ) by norm_num,
      show (((50 : ℕ) : ℚ)) = (50 : ℚ) by norm_num] at h
    rw [cratesNeededFor, CRATES_PER_50KG, mul_one, h]
  refine ⟨hceil, ?_, by decide, by decide, by decide, by decide⟩
  intro q hq
  rw [hceil q]
  have hpos : (0 : ℚ) < (q : ℚ) / 50 := by
    have : (0 : ℚ) < (q : ℚ) := by exact_mod_cast (by omega : (0 : ℤ) < q)
    positivity
  have := Int.ceil_pos.mpr hpos
  omega

/-- Witness for C4's amended claim at quantity 51. -/
theorem C4_witness : 1 ≤ (51 : ℤ) ∧ 1 ≤ cratesNeededFor 51 :=
  ⟨by decide, C4_cratesNeeded_ceil.2.1 51 (by decide)⟩

/-- C5: `getNearbyDropPoints` never reaches the per-point open/closed
computation — the weekday string is requested from `toLocaleDateString`
with the invalid option value `'lowercase'`, which ECMA-402 rejects with a
`RangeError`, so every call raises instead of returning a list (first
conjunct). The helper `isDropPointOpen` itself does behave as the claim
describes: 06:00–18:00 is open at 12:00, closed at 19:00 and at 05:00, and
the 00:00–00:00 sentinel is always closed (remaining conjuncts). -/
theorem C5_getNearby_raises_rangeError :
    (∀ (dist : GeoLocation → GeoLocation → ℚ) (s : StoreState)
      (location : GeoLocation) (radiusKm : ℚ) (now : DateTime),
      getNearbyDropPoints dist s location radiusKm now = .error
        ⟨"Value lowercase out of range for Intl.DateTimeFormat options property weekday"⟩) ∧
    isDropPointOpen (some [("monday", ⟨"06:00", "18:00"⟩)]) "monday"
      ⟨0, 12, 0, 0, 0⟩ = true ∧
    isDropPointOpen (some [("monday", ⟨"06:00", "18:00"⟩)]) "monday"
      ⟨0, 19, 0, 0, 0⟩ = false ∧
    isDropPointOpen (some [("monday", ⟨"06:00", "18:00"⟩)]) "monday"
      ⟨0, 5, 0, 0, 0⟩ = false ∧
    (∀ d : DateTime, isDropPointOpen (some [("monday", ⟨"00:00", "00:00"⟩)])
      "monday" d = false) :=
  ⟨fun _ _ _ _ _ => rfl, rfl, rfl, rfl, fun _ => rfl⟩

/-- C6: an empty candidate retrieval makes `assignDropPoint` fail with the
`NO_DROP_POINTS` error and leave the storage state untouched. -/
theorem C6_no_drop_points (dist : GeoLocation → GeoLocation → ℚ)
    (s : StoreState) (now : DateTime) (input : AssignDropPointInput)
    (hempty : findNearby dist s input.farmerLocation DEFAULT_SEARCH_RADIUS_KM
      20 = []) :
    assignDropPoint dist s now input =
      (.error ⟨"No drop points found within search radius", "NO_DROP_POINTS"⟩,
        s) := by
  simp only [assignDropPoint, hempty]

/-- Witness for C6 on a store with no drop points. -/
theorem C6_witness :
    findNearby exDist exEmptyState exInput.farmerLocation
      DEFAULT_SEARCH_RADIUS_KM 20 = [] ∧
    assignDropPoint exDist exEmptyState exNow exInput =
      (.error ⟨"No drop points found within search radius", "NO_DROP_POINTS"⟩,
        exEmptyState) :=
  ⟨rfl, C6_no_drop_points exDist exEmptyState exNow exInput rfl⟩

/-- C9: every successful assignment's pickup window starts at the preferred
date with wall-clock 07:00:00.000 and ends at the preferred date with
wall-clock 09:00:00.000, and the stored assignment row carries the same
two timestamps. -/
theorem C9_pickup_window (dist : GeoLocation → GeoLocation → ℚ)
    (s : StoreState) (now : DateTime) (input : AssignDropPointInput)
    (r : DropPointAssignmentResult) (s' : StoreState)
    (h : assignDropPoint dist s now input = (.ok r, s')) :
    r.pickupWindow.start = ⟨(resolvePreferredDate now input).day, 7, 0, 0, 0⟩ ∧
    r.pickupWindow.endTime
      = ⟨(resolvePreferredDate now input).day, 9, 0, 0, 0⟩ ∧
    r.assignment.pickupWindowStart = r.pickupWindow.start ∧
    r.assignment.pickupWindowEnd = r.pickupWindow.endTime := by
  cases hn : findNearby dist s input.farmerLocation DEFAULT_SEARCH_RADIUS_KM 20 with
  | nil =>
    simp only [assignDropPoint, hn] at h
    simp at h
  | cons dp0 rest =>
    obtain ⟨sel, sid, spre, r0, s0', hsel, hframe, hslotEx, hdisj, hA, h6, h7,
      h8, h9, h10, h11, h12, h13, h14, h15, h16, h17, h18, h19, h20, h21,
      h22⟩ := assignDropPoint_ok_spec dist s now input dp0 rest hn
    rw [hA] at h
    injection h with h1 h2
    injection h1 with h1
    subst h1
    subst h2
    refine ⟨?_, ?_, h17, h18⟩
    · rw [h15]
      simp [jsSetHours, DEFAULT_TIME_SLOT_START_HOUR]
    · rw [h16]
      simp [jsSetHours, DEFAULT_TIME_SLOT_START_HOUR,
        DEFAULT_TIME_SLOT_DURATION_HOURS]

/-- Witness for C9 on the fixture run (preferred date: epoch day 100). -/
theorem C9_witness :
    assignDropPoint exDist exState exNow exInput = (.ok exRes, exRun.2) ∧
    exRes.pickupWindow.start = ⟨100, 7, 0, 0, 0⟩ ∧
    exRes.pickupWindow.endTime = ⟨100, 9, 0, 0, 0⟩ := by
  refine ⟨rfl, ?_, ?_⟩
  · exact (C9_pickup_window exDist exState exNow exInput exRes exRun.2 rfl).1
  · exact (C9_pickup_window exDist exState exNow exInput exRes exRun.2 rfl).2.1

/-- C3 counterexample: the candidate scan is not read-only. On a store with
one candidate and no slot rows, the scan itself creates a capacity slot,
mutating storage before the loop completes — refuting both the "read-only
scan" part and the "only side effects are one increment and one creation"
part of the claim. -/
theorem C3_counterexample :
    findNearby exDist exState exInput.farmerLocation DEFAULT_SEARCH_RADIUS_KM
      20 = [⟨exDP, 0⟩] ∧
    exState.slots = [] ∧
    (scanCandidates exState [⟨exDP, 0⟩] exDate 100 "Tomato" 2).2.2 ≠ exState ∧
    (scanCandidates exState [⟨exDP, 0⟩] exDate 100 "Tomato" 2).2.2.slots
      = [⟨1, "dp-1", exDate, 7, 9, 1000, 0⟩] := by
  refine ⟨rfl, rfl, ?_, rfl⟩
  decide

/-- C3 (amended): before the scan completes, no used-capacity increment and
no assignment creation has happened, but the scan may lazily create
default capacity slots (1000 kg max, 0 kg used). Over the whole operation
the side effects are exactly: those default-slot creations, at most one
used-capacity increment, and one assignment creation. -/
theorem C3_scan_effects (dist : GeoLocation → GeoLocation → ℚ)
    (s : StoreState) (now : DateTime) (input : AssignDropPointInput)
    (r : DropPointAssignmentResult) (s' : StoreState)
    (h : assignDropPoint dist s now input = (.ok r, s')) :
    (∀ (cands : List DropPointWithDistance) (preferredDate : DateTime)
        (quantityKg cratesNeeded : ℤ) (cropType : String),
      (scanCandidates s cands preferredDate quantityKg cropType
        cratesNeeded).2.2.assignments = s.assignments ∧
      (scanCandidates s cands preferredDate quantityKg cropType
        cratesNeeded).2.2.dropPoints = s.dropPoints ∧
      ∃ extra,
        (scanCandidates s cands preferredDate quantityKg cropType
          cratesNeeded).2.2.slots = s.slots ++ extra ∧
        ∀ sl ∈ extra, sl.maxCapacityKg = 1000 ∧ sl.usedCapacityKg = 0) ∧
    s'.dropPoints = s.dropPoints ∧
    s'.assignments = s.assignments ++ [r.assignment] ∧
    ∃ extra, (∀ sl ∈ extra, sl.maxCapacityKg = 1000 ∧ sl.usedCapacityKg = 0) ∧
      (s'.slots = s.slots ++ extra ∨
        ∃ sid, sid ≠ 0 ∧
          s'.slots = (s.slots ++ extra).map (incrSlot sid input.quantityKg)) := by
  constructor
  · intro cands preferredDate quantityKg cratesNeeded cropType
    obtain ⟨hframe, -, -⟩ := scanCandidates_spec preferredDate quantityKg
      cropType cratesNeeded cands s s (scanFrame_refl s)
    obtain ⟨hdp, hassign, -, -, extra, hslots, hextra, -⟩ := hframe
    exact ⟨hassign, hdp, extra, hslots, fun sl hsl => ⟨(hextra sl hsl).1,
      (hextra sl hsl).2.1⟩⟩
  · cases hn : findNearby dist s input.farmerLocation DEFAULT_SEARCH_RADIUS_KM 20 with
    | nil =>
      simp only [assignDropPoint, hn] at h
      simp at h
    | cons dp0 rest =>
      obtain ⟨sel, sid, spre, r0, s0', hsel, hframe, hslotEx, hdisj, hA, h6,
        h7, h8, h9, h10, h11, h12, h13, h14, h15, h16, h17, h18, h19, h20,
        h21, h22⟩ := assignDropPoint_ok_spec dist s now input dp0 rest hn
      rw [hA] at h
      injection h with h1 h2
      injection h1 with h1
      subst h1
      subst h2
      obtain ⟨hdp, hassign, -, -, extra, hslots, hextra, -⟩ := hframe
      refine ⟨h19.trans hdp, h20.trans (by rw [hassign]), extra,
        fun sl hsl => ⟨(hextra sl hsl).1, (hextra sl hsl).2.1⟩, ?_⟩
      by_cases h0 : sid = 0
      · left
        rw [h21 h0, hslots]
      · right
        exact ⟨sid, h0, by rw [h22 h0, hslots]⟩

/-- Witness for C3's amended claim on the fixture run. -/
theorem C3_witness :
    assignDropPoint exDist exState exNow exInput = (.ok exRes, exRun.2) ∧
    exRun.2.assignments = exState.assignments ++ [exRes.assignment] := by
  refine ⟨rfl, ?_⟩
  exact (C3_scan_effects exDist exState exNow exInput exRes exRun.2 rfl).2.2.1

/-- C10: `checkSlotCapacity` never reports a missing slot — when none
exists for the key it creates one with 1000 kg max and 0 kg used (first
conjunct) — so every successful `assignDropPoint` run passes the `slotId`
truthiness guard, and exactly one `reserveCapacity` increment of
`usedCapacityKg` by the requested quantity hits the selected point's slot
for the preferred date at start hour 7 (the `countP = 1` conjunct makes
the increment unique); this holds on both the feasible-match and the
fallback path. Autoincrement ids are positive and fresh, which the
hypotheses on the initial store record. -/
theorem C10_slot_reservation (dist : GeoLocation → GeoLocation → ℚ)
    (s : StoreState) (now : DateTime) (input : AssignDropPointInput)
    (r : DropPointAssignmentResult) (s' : StoreState)
    (hids : ∀ sl ∈ s.slots, 1 ≤ sl.id ∧ sl.id < s.nextSlotId)
    (hnz : 1 ≤ s.nextSlotId)
    (hnd : (s.slots.map (fun sl => sl.id)).Nodup)
    (hok : assignDropPoint dist s now input = (.ok r, s')) :
    (∀ (t : StoreState) (dropPointId : String) (date : DateTime)
        (startHour : ℕ) (requiredKg : ℤ),
      ((checkSlotCapacity t dropPointId date startHour requiredKg).1.slot).isSome
        = true ∧
      (t.slots.find? (slotMatches dropPointId date startHour) = none →
        (checkSlotCapacity t dropPointId date startHour requiredKg).1.slot
          = some ⟨t.nextSlotId, dropPointId, date, startHour, startHour + 2,
              1000, 0⟩)) ∧
    ∃ (sid : ℕ) (spre : StoreState) (slot : TimeSlotCapacity),
      slot ∈ spre.slots ∧ slot.id = sid ∧ sid ≠ 0 ∧
      slot.dropPointId = r.dropPoint.id ∧
      slot.slotDate = resolvePreferredDate now input ∧
      slot.slotStartHour = DEFAULT_TIME_SLOT_START_HOUR ∧
      spre.slots.countP (fun sl => sl.id == sid) = 1 ∧
      s'.slots = spre.slots.map (incrSlot sid input.quantityKg) := by
  constructor
  · intro t dropPointId date startHour requiredKg
    constructor
    · obtain ⟨slot, hslot, -⟩ :=
        checkSlotCapacity_spec t dropPointId date startHour requiredKg
      rw [hslot]
      rfl
    · intro hnone
      simp [checkSlotCapacity, hnone]
  · cases hn : findNearby dist s input.farmerLocation DEFAULT_SEARCH_RADIUS_KM 20 with
    | nil =>
      simp only [assignDropPoint, hn] at hok
      simp at hok
    | cons dp0 rest =>
      obtain ⟨sel, sid, spre, r0, s0', hsel, hframe, hslotEx, hdisj, hA, h6,
        h7, h8, h9, h10, h11, h12, h13, h14, h15, h16, h17, h18, h19, h20,
        h21, h22⟩ := assignDropPoint_ok_spec dist s now input dp0 rest hn
      rw [hA] at hok
      injection hok with h1 h2
      injection h1 with h1
      subst h1
      subst h2
      obtain ⟨slot, hmem, hsid, hkid, hkdate, hkhour⟩ := hslotEx
      have hpos : 1 ≤ slot.id := by
        obtain ⟨-, -, -, -, extra, hslots, hextra, -⟩ := hframe
        rw [hslots] at hmem
        rcases List.mem_append.mp hmem with hmem' | hmem'
        · exact (hids slot hmem').1
        · exact le_trans hnz (hextra slot hmem').2.2.1
      have hne : sid ≠ 0 := by omega
      refine ⟨sid, spre, slot, hmem, hsid.symm, hne, ?_, hkdate, hkhour, ?_,
        h22 hne⟩
      · rw [hkid, h6]
      · have hnodup := scanFrame_nodup_ids hframe
          (fun sl hsl => (hids sl hsl).2) hnd
        have := countP_id_eq_one hnodup hmem
        rw [← hsid] at this
        exact this

/-- Witness for C10 on the fixture run: the created slot (id 1) for the
preferred date at hour 7 receives the one 100 kg reservation. -/
theorem C10_witness :
    assignDropPoint exDist exState exNow exInput = (.ok exRes, exRun.2) ∧
    ∃ (sid : ℕ) (spre : StoreState) (slot : TimeSlotCapacity),
      slot ∈ spre.slots ∧ slot.id = sid ∧ sid ≠ 0 ∧
      slot.dropPointId = exRes.dropPoint.id ∧
      slot.slotDate = resolvePreferredDate exNow exInput ∧
      slot.slotStartHour = DEFAULT_TIME_SLOT_START_HOUR ∧
      spre.slots.countP (fun sl => sl.id == sid) = 1 ∧
      exRun.2.slots = spre.slots.map (incrSlot sid exInput.quantityKg) := by
  refine ⟨rfl, ?_⟩
  exact (C10_slot_reservation exDist exState exNow exInput exRes exRun.2
    (by intro sl hsl; simp [exState] at hsl) (by decide)
    (by simp [exState]) rfl).2

/-- C7: `reassignDropPoint` fails with `NOT_FOUND` exactly when the listing
has no assignment, fails with `DROP_POINT_NOT_FOUND` exactly when the new
point id does not resolve — the state untouched in both failure cases —
and otherwise applies the update and returns the freshly re-read hydrated
result (the `UPDATE_FAILED` branch guards the re-read coming back empty,
which under the sequential storage model never happens). The hypothesis
records referential integrity: every stored assignment's drop point
resolves. -/
theorem C7_reassign_errors (s : StoreState) (listingId : ℤ)
    (newDropPointId changeReason : String)
    (hint : ∀ a ∈ s.assignments, (findById s a.dropPointId).isSome = true) :
    (s.assignments.find? (fun x => x.listingId == listingId) = none →
      reassignDropPoint s listingId newDropPointId changeReason =
        (.error ⟨"No existing assignment found", "NOT_FOUND"⟩, s)) ∧
    (∀ a, s.assignments.find? (fun x => x.listingId == listingId) = some a →
      findById s newDropPointId = none →
      reassignDropPoint s listingId newDropPointId changeReason =
        (.error ⟨"New drop point not found", "DROP_POINT_NOT_FOUND"⟩, s)) ∧
    (∀ a p, s.assignments.find? (fun x => x.listingId == listingId) = some a →
      findById s newDropPointId = some p →
      ∃ r, reassignDropPoint s listingId newDropPointId changeReason =
          (.ok r, updateAssignment s listingId
            { dropPointId := some newDropPointId, status := some "REASSIGNED"
              changeReason := some changeReason
              previousDropPointId := some a.dropPointId }) ∧
        getAssignmentResult (updateAssignment s listingId
            { dropPointId := some newDropPointId, status := some "REASSIGNED"
              changeReason := some changeReason
              previousDropPointId := some a.dropPointId }) listingId
          = some r) := by
  refine ⟨?_, ?_, ?_⟩
  · intro hnone
    simp only [reassignDropPoint, getAssignmentWithDropPoint, hnone,
      Option.none_bind]
  · intro a hfindA hnew
    obtain ⟨dp, hdp⟩ := Option.isSome_iff_exists.mp
      (hint a (List.mem_of_find?_eq_some hfindA))
    simp only [reassignDropPoint, getAssignmentWithDropPoint, hfindA,
      Option.some_bind, hdp, Option.map_some', hnew]
  · intro a p hfindA hnew
    obtain ⟨dp, hdp⟩ := Option.isSome_iff_exists.mp
      (hint a (List.mem_of_find?_eq_some hfindA))
    have hfind1 : (updateAssignment s listingId
        { dropPointId := some newDropPointId, status := some "REASSIGNED"
          changeReason := some changeReason
          previousDropPointId := some a.dropPointId }).assignments.find?
        (fun x => x.listingId == listingId)
        = some (applyUpdate
            { dropPointId := some newDropPointId, status := some "REASSIGNED"
              changeReason := some changeReason
              previousDropPointId := some a.dropPointId } a) := by
      exact find?_map_update (fun x => x.listingId == listingId)
        (applyUpdate _) (fun x hx => hx) s.assignments a hfindA
    have hbyid1 : findById (updateAssignment s listingId
        { dropPointId := some newDropPointId, status := some "REASSIGNED"
          changeReason := some changeReason
          previousDropPointId := some a.dropPointId })
        (applyUpdate
          { dropPointId := some newDropPointId, status := some "REASSIGNED"
            changeReason := some changeReason
            previousDropPointId := some a.dropPointId } a).dropPointId
        = some p := hnew
    simp only [reassignDropPoint, getAssignmentWithDropPoint, hfindA,
      Option.some_bind, hdp, Option.map_some', hnew, getAssignmentResult,
      hfind1, hbyid1]
    exact ⟨_, rfl, rfl⟩

/-- Witness for C7: the fixture store holds one assignment (listing 5);
reassigning it to the resolvable point `dp-2` succeeds with the re-read
result. -/
theorem C7_witness :
    (∀ a ∈ exReassignState.assignments,
      (findById exReassignState a.dropPointId).isSome = true) ∧
    exReassignState.assignments.find? (fun x => x.listingId == 5)
      = some exAssign ∧
    findById exReassignState "dp-2" = some exDPB ∧
    ∃ r, reassignDropPoint exReassignState 5 "dp-2" "farmer moved" =
        (.ok r, updateAssignment exReassignState 5
          { dropPointId := some "dp-2", status := some "REASSIGNED"
            changeReason := some "farmer moved"
            previousDropPointId := some exAssign.dropPointId }) := by
  refine ⟨by decide, rfl, rfl, ?_⟩
  obtain ⟨r, hr, -⟩ :=
    (C7_reassign_errors exReassignState 5 "dp-2" "farmer moved"
      (by decide)).2.2 exAssign exDPB rfl rfl
  exact ⟨r, hr⟩

/-- C8: a successful reassignment rewrites exactly four fields of the
stored assignment — the drop point id, the status (to `REASSIGNED`), the
change reason and the previous drop point id — and every other field
(recorded distance, pickup window, crates needed, supplier location, ids)
is unchanged; no distance recomputation and no constraint re-check happens
(the returned record is the stored one after the four-field override), and
assignments of other listings are untouched. -/
theorem C8_reassign_four_fields (s : StoreState) (listingId : ℤ)
    (newDropPointId changeReason : String) (a : DropPointAssignment)
    (dp p : DropPoint)
    (hfindA : s.assignments.find? (fun x => x.listingId == listingId)
      = some a)
    (hdp : findById s a.dropPointId = some dp)
    (hnew : findById s newDropPointId = some p) :
    ∃ r s', reassignDropPoint s listingId newDropPointId changeReason
      = (.ok r, s') ∧
      r.assignment.dropPointId = newDropPointId ∧
      r.assignment.status = "REASSIGNED" ∧
      r.assignment.changeReason = some changeReason ∧
      r.assignment.previousDropPointId = some a.dropPointId ∧
      r.assignment.id = a.id ∧
      r.assignment.listingId = a.listingId ∧
      r.assignment.farmerId = a.farmerId ∧
      r.assignment.farmerLatitude = a.farmerLatitude ∧
      r.assignment.farmerLongitude = a.farmerLongitude ∧
      r.assignment.distanceKm = a.distanceKm ∧
      r.assignment.pickupWindowStart = a.pickupWindowStart ∧
      r.assignment.pickupWindowEnd = a.pickupWindowEnd ∧
      r.assignment.cratesNeeded = a.cratesNeeded ∧
      s'.dropPoints = s.dropPoints ∧
      s'.slots = s.slots ∧
      s'.assignments = s.assignments.map
        (fun x => if x.listingId == listingId then
          applyUpdate
            { dropPointId := some newDropPointId, status := some "REASSIGNED"
              changeReason := some changeReason
              previousDropPointId := some a.dropPointId } x
          else x) := by
  have hfind1 : (updateAssignment s listingId
      { dropPointId := some newDropPointId, status := some "REASSIGNED"
        changeReason := some changeReason
        previousDropPointId := some a.dropPointId }).assignments.find?
      (fun x => x.listingId == listingId)
      = some (applyUpdate
          { dropPointId := some newDropPointId, status := some "REASSIGNED"
            changeReason := some changeReason
            previousDropPointId := some a.dropPointId } a) :=
    find?_map_update (fun x => x.listingId == listingId)
      (applyUpdate _) (fun x hx => hx) s.assignments a hfindA
  have hbyid1 : findById (updateAssignment s listingId
      { dropPointId := some newDropPointId, status := some "REASSIGNED"
        changeReason := some changeReason
        previousDropPointId := some a.dropPointId })
      (applyUpdate
        { dropPointId := some newDropPointId, status := some "REASSIGNED"
          changeReason := some changeReason
          previousDropPointId := some a.dropPointId } a).dropPointId
      = some p := hnew
  simp only [reassignDropPoint, getAssignmentWithDropPoint, hfindA,
    Option.some_bind, hdp, Option.map_some', hnew, getAssignmentResult,
    hfind1, hbyid1]
  exact ⟨_, _, rfl, rfl, rfl, rfl, rfl, rfl, rfl, rfl, rfl, rfl, rfl, rfl,
    rfl, rfl, rfl, rfl, rfl⟩

/-- Witness for C8 on the reassignment fixture: only the four override
fields change; distance, windows and crates are preserved. -/
theorem C8_witness :
    exReassignState.assignments.find? (fun x => x.listingId == 5)
      = some exAssign ∧
    findById exReassignState exAssign.dropPointId = some exDP ∧
    findById exReassignState "dp-2" = some exDPB ∧
    ∃ r s', reassignDropPoint exReassignState 5 "dp-2" "truck rerouted"
        = (.ok r, s') ∧
      r.assignment.dropPointId = "dp-2" ∧
      r.assignment.status = "REASSIGNED" ∧
      r.assignment.distanceKm = exAssign.distanceKm ∧
      r.assignment.cratesNeeded = exAssign.cratesNeeded := by
  refine ⟨rfl, rfl, rfl, ?_⟩
  obtain ⟨r, s', hr, h1, h2, -, -, -, -, -, -, -, h10, -, -, h13, -⟩ :=
    C8_reassign_four_fields exReassignState 5 "dp-2" "truck rerouted"
      exAssign exDP exDPB rfl rfl rfl
  exact ⟨r, s', hr, h1, h2, h10, h13⟩
